import Mathlib

/-!
Verification of the job-skill catalog API (src/api/index.py).

The program is a FastAPI service over a fixed in-memory catalog.  This file
shallowly embeds its data model, the two schema transformers and the endpoint
handlers, and proves the stated properties about them.

Modelling conventions:
* pydantic `Optional[T]` fields become `Option T`; defaulted fields keep the
  same defaults.
* Python truthiness of an `Optional[bool]` (`if x:`) is `truthy`: only
  `some true` is truthy; `none` and `some false` are falsy.
* `HTTPException(status_code, detail)` becomes an `HTTPError` value returned
  through `Except`; a handler that does not raise returns `Except.ok`.
* `uuid4()` produces a fresh random UUID at startup; no endpoint logic ever
  reads these identifier values, so they are embedded as fixed placeholder
  strings.
* Fields of the wire schemas that are never populated and never read by any
  code path (the remaining optional `JobPosting` fields, the float-valued
  `acquisitionDifficulty`, the constant JSON-LD `@context` block of
  `SkillsResponse`, `proficiencyScales`, `keywords`, `verifications`) are
  omitted from the embedding; they are constants independent of all input.
-/

namespace JedxApp

/-- Python truthiness of an `Optional[bool]`: only `True` is truthy. -/
def truthy (b : Option Bool) : Bool := b.getD false

/-- Python `str.lower()`: lower-case every character. -/
def str_lower (s : String) : String := String.mk (s.data.map Char.toLower)

/-- `class Identifier(BaseModel)` (index.py lines 28-32). -/
structure Identifier where
  value : String
  schemeId : String := "UUID"
  description : Option String := none
  schemeLink : Option String := none
deriving DecidableEq

/-- `class HiringOrganization(BaseModel)` (lines 35-36). -/
structure HiringOrganization where
  legalName : String
deriving DecidableEq

/-- `class SkillAnnotation(BaseModel)` (lines 39-42). -/
structure SkillAnnotation where
  required : Option Bool := none
  preferred : Option Bool := none
  requiredAtHiring : Option Bool := none
deriving DecidableEq

/-- `class JobSkill(BaseModel)` (lines 45-50). -/
structure JobSkill where
  name : String
  description : Option String := none
  yearsOfExperience : Option Int := none
  annotation : Option SkillAnnotation := none
deriving DecidableEq

/-- `class Job(BaseModel)` (lines 53-59). -/
structure Job where
  identifiers : List Identifier
  hiringOrganization : HiringOrganization
  name : String
  positionID : String
  dateCreated : String
  skills : List JobSkill := []
deriving DecidableEq

/-- `class Skill(BaseModel)` (lines 62-65). -/
structure Skill where
  name : String
  description : Option String := none
  yearsOfExperience : Option Int := none
deriving DecidableEq

/-- `class JobWithSkillsResponse(BaseModel)` (lines 68-71). -/
structure JobWithSkillsResponse where
  job : Job
  required_skills : List JobSkill
  recommended_skills : List JobSkill
deriving DecidableEq

/-- `class ScaleAnnotation(BaseModel)` (lines 75-81); the float field
`acquisitionDifficulty` is never assigned anywhere in the program and is
omitted. -/
structure ScaleAnnotation where
  required : Option Bool := none
  preferred : Option Bool := none
  requiredAtHiring : Option Bool := none
  acquiredInternally : Option Bool := none
  descriptions : Option (List String) := none
deriving DecidableEq

/-- `class AnnotatedDefinedTerm(BaseModel)` (lines 84-88). -/
structure AnnotatedDefinedTerm where
  name : String
  termCode : Option String := none
  descriptions : Option (List String) := none
  annotation : Option ScaleAnnotation := none
deriving DecidableEq

/-- `class JDXOrganization(BaseModel)` (lines 91-94). -/
structure JDXOrganization where
  name : Option String := none
  legalName : Option String := none
  descriptions : Option (List String) := none
deriving DecidableEq

/-- Shape of the `requiredExperiences` entries of `transform_job_to_posting`
(dicts with keys `duration`, `descriptions`, `experienceCategories`). -/
structure ExperienceCategory where
  descriptions : List String
deriving DecidableEq

/-- An entry of `required_experiences_data` (lines 382-393 etc.). -/
structure RequiredExperience where
  duration : String
  descriptions : List String
  experienceCategories : List ExperienceCategory
deriving DecidableEq

/-- An entry of `required_credentials_data` (lines 394-399 etc.). -/
structure RequiredCredential where
  programConcentration : String
  descriptions : List String
deriving DecidableEq

/-- `class JobPosting(BaseModel)` (lines 103-164), restricted to the fields
that `transform_job_to_posting` populates; all remaining optional fields keep
their schema defaults on every code path and are omitted from the embedding. -/
structure JobPosting where
  identifiers : List Identifier := []
  name : Option String := none
  title : Option String := none
  positionID : Option String := none
  postingID : Option String := none
  hiringOrganization : Option JDXOrganization := none
  dateCreated : Option String := none
  skills : Option (List AnnotatedDefinedTerm) := some []
  responsibilities : Option (List AnnotatedDefinedTerm) := some []
  requiredExperiences : Option (List RequiredExperience) := some []
  requiredCredentials : Option (List RequiredCredential) := some []
  employerOverview : Option (List String) := some []
  qualificationSummary : Option (List String) := some []
deriving DecidableEq

/-- `class SkillModel(BaseModel)` (lines 566-577); `keywords` and
`verifications` are never assigned and omitted. -/
structure SkillModel where
  id : String
  type : String := "schema:Skill"
  name : Option String := none
  description : Option String := none
  codedNotation : Option String := none
  ctid : Option String := none
deriving DecidableEq

/-- `class ProficiencyLevel(BaseModel)` (lines 580-585). -/
structure ProficiencyLevel where
  type : String := "schema:DefinedTerm"
  name : String
deriving DecidableEq

/-- `class SkillAssertion(BaseModel)` (lines 588-597). -/
structure SkillAssertion where
  type : String := "schema:SkillAssertion"
  skill : SkillModel
  proficiencyLevel : ProficiencyLevel
  validationStatus : String
  validFrom : String
  validUntil : Option String := none
deriving DecidableEq

/-- `class ReferencedObject(BaseModel)` (lines 600-605). -/
structure ReferencedObject where
  id : String
  type : Option String := none
deriving DecidableEq

/-- `class SkillsResponse(BaseModel)` (lines 608-653); the constant JSON-LD
`@context` default and the always-empty `proficiencyScales` are omitted: they
are identical in every response and never read. -/
structure SkillsResponse where
  object : Option ReferencedObject := none
  skills : List SkillAssertion
deriving DecidableEq

/-- An `HTTPException(status_code=..., detail=...)` raised by a handler. -/
structure HTTPError where
  status : Nat
  detail : String
deriving DecidableEq

/-- `sample_skills` (lines 168-177). -/
def sample_skills : List Skill :=
  [ { name := "Python Programming",
      description := some "Proficiency in Python programming language",
      yearsOfExperience := some 3 },
    { name := "FastAPI Development",
      description := some "Experience building REST APIs with FastAPI framework",
      yearsOfExperience := some 2 },
    { name := "SQL Database Design",
      description := some "Ability to design and optimize SQL databases",
      yearsOfExperience := some 4 },
    { name := "Docker Containerization",
      description := some "Experience with containerization using Docker",
      yearsOfExperience := some 2 },
    { name := "AWS Cloud Services",
      description := some "Knowledge of Amazon Web Services cloud platform",
      yearsOfExperience := some 3 },
    { name := "Git Version Control",
      description := some "Proficiency with Git for version control",
      yearsOfExperience := some 5 },
    { name := "RESTful API Design",
      description := some "Understanding of REST principles and API design",
      yearsOfExperience := some 3 },
    { name := "PostgreSQL",
      description := some "Experience with PostgreSQL database management",
      yearsOfExperience := some 2 } ]

/-- `sample_jobs` (lines 179-297).  Each identifier value is `str(uuid4())`
in the source, a random string generated at startup that no endpoint logic
ever reads; it is embedded as a fixed placeholder. -/
def sample_jobs : List Job :=
  [ { identifiers := [ { value := "uuid-job-1" } ],
      hiringOrganization := { legalName := "TechCorp Solutions" },
      name := "Senior Backend Developer",
      positionID := "JDX-001",
      dateCreated := "2024-01-15T10:00:00Z",
      skills :=
        [ { name := "Python Programming",
            description := some "Proficiency in Python programming language",
            yearsOfExperience := some 3,
            annotation := some { required := some true, requiredAtHiring := some true } },
          { name := "FastAPI Development",
            description := some "Experience building REST APIs with FastAPI framework",
            yearsOfExperience := some 2,
            annotation := some { required := some true, requiredAtHiring := some true } },
          { name := "SQL Database Design",
            description := some "Ability to design and optimize SQL databases",
            yearsOfExperience := some 4,
            annotation := some { required := some true, requiredAtHiring := some false } },
          { name := "Docker Containerization",
            description := some "Experience with containerization using Docker",
            yearsOfExperience := some 2,
            annotation := some { preferred := some true } },
          { name := "AWS Cloud Services",
            description := some "Knowledge of Amazon Web Services cloud platform",
            yearsOfExperience := some 3,
            annotation := some { preferred := some true } } ] },
    { identifiers := [ { value := "uuid-job-2" } ],
      hiringOrganization := { legalName := "DataSystems Inc" },
      name := "Full Stack Developer",
      positionID := "JDX-002",
      dateCreated := "2024-02-01T09:30:00Z",
      skills :=
        [ { name := "Python Programming",
            description := some "Proficiency in Python programming language",
            yearsOfExperience := some 2,
            annotation := some { required := some true, requiredAtHiring := some true } },
          { name := "RESTful API Design",
            description := some "Understanding of REST principles and API design",
            yearsOfExperience := some 3,
            annotation := some { required := some true, requiredAtHiring := some true } },
          { name := "PostgreSQL",
            description := some "Experience with PostgreSQL database management",
            yearsOfExperience := some 2,
            annotation := some { required := some true, requiredAtHiring := some false } },
          { name := "Git Version Control",
            description := some "Proficiency with Git for version control",
            yearsOfExperience := some 3,
            annotation := some { preferred := some true } },
          { name := "FastAPI Development",
            description := some "Experience building REST APIs with FastAPI framework",
            yearsOfExperience := some 1,
            annotation := some { preferred := some true } } ] },
    { identifiers := [ { value := "uuid-job-3" } ],
      hiringOrganization := { legalName := "CloudTech Innovations" },
      name := "DevOps Engineer",
      positionID := "JDX-003",
      dateCreated := "2024-02-10T14:20:00Z",
      skills :=
        [ { name := "Docker Containerization",
            description := some "Experience with containerization using Docker",
            yearsOfExperience := some 3,
            annotation := some { required := some true, requiredAtHiring := some true } },
          { name := "AWS Cloud Services",
            description := some "Knowledge of Amazon Web Services cloud platform",
            yearsOfExperience := some 4,
            annotation := some { required := some true, requiredAtHiring := some true } },
          { name := "Git Version Control",
            description := some "Proficiency with Git for version control",
            yearsOfExperience := some 4,
            annotation := some { required := some true, requiredAtHiring := some true } },
          { name := "Python Programming",
            description := some "Proficiency in Python programming language",
            yearsOfExperience := some 2,
            annotation := some { preferred := some true } },
          { name := "SQL Database Design",
            description := some "Ability to design and optimize SQL databases",
            yearsOfExperience := some 2,
            annotation := some { preferred := some true } } ] } ]

/-- The body of the skills loop of `transform_job_to_posting` (lines 341-354):
each `JobSkill` becomes an `AnnotatedDefinedTerm`.  The description list is
`[skill.description] if skill.description else None`, so a `None` or empty
description yields `none` by Python truthiness; the three boolean flags are
copied verbatim into a `ScaleAnnotation` when an annotation is present. -/
def to_annotated (skill : JobSkill) : AnnotatedDefinedTerm :=
  { name := skill.name,
    descriptions :=
      match skill.description with
      | some d => if d == "" then none else some [d]
      | none => none,
    annotation :=
      match JobSkill.annotation skill with
      | some a =>
          some { required := a.required, preferred := a.preferred,
                 requiredAtHiring := a.requiredAtHiring }
      | none => none }

/-- The `if job.positionID == ...` chain of `transform_job_to_posting`
(lines 358-465): the static per-position tables for responsibilities,
required experiences and required credentials, with the empty triple as the
silent fallback for unknown position IDs. -/
def position_tables (positionID : String) :
    List AnnotatedDefinedTerm × List RequiredExperience × List RequiredCredential :=
  if positionID = "JDX-001" then
    ( [ { name := "Design and develop backend services",
          descriptions := some
            [ "Lead the design and implementation of scalable backend systems using Python and FastAPI.",
              "Architect scalable backend systems",
              "Design system integrations and data flows",
              "Lead technical design discussions and code reviews" ] },
        { name := "Database management",
          descriptions := some
            [ "Manage and optimize PostgreSQL databases, ensuring data integrity and performance.",
              "Design and optimize database schemas",
              "Implement database migrations and versioning",
              "Monitor and tune database performance" ] },
        { name := "API development",
          descriptions := some
            [ "Develop and maintain robust RESTful APIs for various client applications.",
              "Design RESTful API endpoints",
              "Implement API versioning and documentation",
              "Ensure API security and authentication" ] },
        { name := "System Architecture",
          descriptions := some
            [ "Architect scalable backend systems",
              "Design system integrations and data flows",
              "Lead technical design discussions and code reviews" ] } ],
      [ { duration := "P5Y",
          descriptions := ["Backend software development experience"],
          experienceCategories := [ { descriptions := ["Work Experience"] } ] },
        { duration := "P3Y",
          descriptions := ["API development and RESTful service design"],
          experienceCategories := [ { descriptions := ["Work Experience"] } ] } ],
      [ { programConcentration := "Computer Science", descriptions := ["BS"] } ] )
  else if positionID = "JDX-002" then
    ( [ { name := "Full Stack Development",
          descriptions := some
            [ "Develop both frontend and backend components of web applications",
              "Create responsive user interfaces and RESTful APIs",
              "Integrate frontend and backend systems" ] },
        { name := "Collaborate with design team",
          descriptions := some
            [ "Work closely with designers to translate mockups into functional web applications",
              "Participate in design reviews and provide technical feedback",
              "Ensure UI/UX best practices" ] },
        { name := "Maintain existing codebase",
          descriptions := some
            [ "Debug and improve existing features, ensuring high code quality",
              "Refactor legacy code",
              "Write and maintain unit tests" ] } ],
      [ { duration := "P3Y",
          descriptions := ["Full-stack web development"],
          experienceCategories := [ { descriptions := ["Work Experience"] } ] },
        { duration := "P2Y",
          descriptions := ["Frontend framework experience (e.g., React, Vue)"],
          experienceCategories := [ { descriptions := ["Work Experience"] } ] } ],
      [ { programConcentration := "Software Engineering", descriptions := ["BS"] } ] )
  else if positionID = "JDX-003" then
    ( [ { name := "Manage CI/CD pipelines",
          descriptions := some
            [ "Oversee and optimize continuous integration and continuous deployment pipelines",
              "Automate build, test, and deployment processes",
              "Monitor pipeline performance and reliability" ] },
        { name := "Cloud infrastructure management",
          descriptions := some
            [ "Manage and provision cloud resources on AWS using Infrastructure as Code",
              "Design and implement scalable cloud architectures",
              "Optimize cloud costs and resource utilization" ] },
        { name := "Container orchestration",
          descriptions := some
            [ "Implement and maintain Docker and Kubernetes solutions",
              "Manage containerized applications",
              "Ensure container security and best practices" ] } ],
      [ { duration := "P4Y",
          descriptions := ["DevOps or infrastructure engineering experience"],
          experienceCategories := [ { descriptions := ["Work Experience"] } ] },
        { duration := "P3Y",
          descriptions := ["AWS cloud services management"],
          experienceCategories := [ { descriptions := ["Work Experience"] } ] } ],
      [ { programConcentration := "Cloud Computing",
          descriptions := ["AWS Certified DevOps Engineer"] } ] )
  else ([], [], [])

/-- `transform_job_to_posting` (lines 339-481). -/
def transform_job_to_posting (job : Job) : JobPosting :=
  let skills := job.skills.map to_annotated
  let hiring_org : JDXOrganization := { legalName := some job.hiringOrganization.legalName }
  let tables := position_tables job.positionID
  { identifiers := job.identifiers,
    name := some job.name,
    title := some job.name,
    positionID := some job.positionID,
    postingID := some job.positionID,
    hiringOrganization := some hiring_org,
    dateCreated := some job.dateCreated,
    skills := some skills,
    employerOverview := some ["Position at " ++ job.hiringOrganization.legalName],
    qualificationSummary := some [job.name ++ " position requiring various technical skills"],
    responsibilities := some tables.1,
    requiredExperiences := some tables.2.1,
    requiredCredentials := some tables.2.2 }

/-- The job lookup `next((j for j in sample_jobs if j.positionID == job_id), None)`
repeated in every job-scoped handler (lines 487, 498, 537, 550, 668). -/
def find_job (job_id : String) : Option Job :=
  sample_jobs.find? (fun j => j.positionID == job_id)

/-- `GET /api/jobs/{job_id}` handler `get_job_by_id` (lines 484-492). -/
def get_job_by_id (job_id : String) : Except HTTPError JobPosting :=
  match find_job job_id with
  | none => .error { status := 404, detail := "Job with ID " ++ job_id ++ " not found" }
  | some job => .ok (transform_job_to_posting job)

/-- The required-skill filter predicate
`skill.annotation and skill.annotation.required` (lines 502-505): truthy only
when an annotation is present and its `required` flag is `True`. -/
def is_required_skill (skill : JobSkill) : Bool :=
  match JobSkill.annotation skill with
  | some a => truthy a.required
  | none => false

/-- The recommended-skill filter predicate
`skill.annotation and skill.annotation.preferred and not skill.annotation.required`
(lines 507-510). -/
def is_recommended_skill (skill : JobSkill) : Bool :=
  match JobSkill.annotation skill with
  | some a => truthy a.preferred && ! truthy a.required
  | none => false

/-- The `required_skills` list comprehension (lines 502-505, 541-544). -/
def required_skills_of (job : Job) : List JobSkill :=
  job.skills.filter is_required_skill

/-- The `recommended_skills` list comprehension (lines 507-510, 554-557). -/
def recommended_skills_of (job : Job) : List JobSkill :=
  job.skills.filter is_recommended_skill

/-- `GET /api/jobs/{job_id}/skills` handler `get_job_with_skills_architecture`
(lines 495-516). -/
def get_job_with_skills_architecture (job_id : String) :
    Except HTTPError JobWithSkillsResponse :=
  match find_job job_id with
  | none => .error { status := 404, detail := "Job with ID " ++ job_id ++ " not found" }
  | some job =>
      .ok { job := job,
            required_skills := required_skills_of job,
            recommended_skills := recommended_skills_of job }

/-- `GET /api/skills/{skill_name}` handler `get_skill_by_name` (lines 525-531);
the detail string is f-string `Skill '{skill_name}' not found`, the \x27
escapes being the apostrophes of the source text. -/
def get_skill_by_name (skill_name : String) : Except HTTPError Skill :=
  match sample_skills.find? (fun s => str_lower s.name == str_lower skill_name) with
  | some skill => .ok skill
  | none => .error { status := 404, detail := "Skill \x27" ++ skill_name ++ "\x27 not found" }

/-- `GET /api/jobs/{job_id}/skills/required` handler `get_required_skills`
(lines 534-544). -/
def get_required_skills (job_id : String) : Except HTTPError (List JobSkill) :=
  match find_job job_id with
  | none => .error { status := 404, detail := "Job with ID " ++ job_id ++ " not found" }
  | some job => .ok (required_skills_of job)

/-- `GET /api/jobs/{job_id}/skills/recommended` handler `get_recommended_skills`
(lines 547-557). -/
def get_recommended_skills (job_id : String) : Except HTTPError (List JobSkill) :=
  match find_job job_id with
  | none => .error { status := 404, detail := "Job with ID " ++ job_id ++ " not found" }
  | some job => .ok (recommended_skills_of job)

/-- The validation-status / proficiency-level derivation of `get_skills_api`
(lines 676-692): defaults Validated/Proficient, overridden when an annotation
is present by the preferred-only rule first, then the required rules. -/
def derive_validation (a : Option SkillAnnotation) : String × String :=
  match a with
  | none => ("Validated", "Proficient")
  | some an =>
      if truthy an.preferred && ! truthy an.required then
        ("Provisional", "Developing")
      else if truthy an.required then
        if truthy an.requiredAtHiring then ("Validated", "Advanced")
        else ("Validated", "Proficient")
      else ("Validated", "Proficient")

/-- Python `str.split()` with no argument (line 699): split on runs of
whitespace, discarding empty pieces.  `cur` holds the current word reversed. -/
def py_split_go (cs : List Char) (cur : List Char) : List String :=
  match cs with
  | [] => if cur.isEmpty then [] else [String.mk cur.reverse]
  | c :: rest =>
      if c.isWhitespace then
        if cur.isEmpty then py_split_go rest []
        else String.mk cur.reverse :: py_split_go rest []
      else py_split_go rest (c :: cur)

/-- `job_skill.name.split()` (line 699). -/
def py_split (s : String) : List String := py_split_go s.data []

/-- `word[:2].upper()` (line 699): the uppercased first at most two
characters of a word. -/
def word_code (w : String) : String := String.mk ((w.data.take 2).map Char.toUpper)

/-- Python `f"{n:03d}"` (line 699): the decimal digits of `n` left-padded
with zeros to a minimum width of three. -/
def pad3 (n : Nat) : String :=
  if n < 10 then "00" ++ toString n
  else if n < 100 then "0" ++ toString n
  else toString n

/-- The generated code of line 699:
`''.join([word[:2].upper() for word in job_skill.name.split()[:2]])` followed
by `-` and the zero-padded sequence number. -/
def coded_notation (name : String) (seq : Nat) : String :=
  String.join (((py_split name).take 2).map word_code) ++ "-" ++ pad3 seq

/-- The skill slug of line 695: `job_skill.name.lower().replace(' ', '-')`;
replacing the single-character pattern space is a per-character substitution. -/
def skill_slug (name : String) : String :=
  String.mk ((str_lower name).data.map (fun c => if c = ' ' then '-' else c))

/-- One iteration of the assertion-building loop of `get_skills_api`
(lines 673-713), at sequence number `seq = len(skill_assertions) + 1`. -/
def mk_skill_assertion (job_skill : JobSkill) (seq : Nat) (dateCreated : String) :
    SkillAssertion :=
  let vp := derive_validation ( JobSkill.annotation job_skill)
  { skill :=
      { id := "https://example.com/skills/" ++ skill_slug job_skill.name,
        name := some job_skill.name,
        description := job_skill.description,
        codedNotation := some ( coded_notation job_skill.name seq) },
    proficiencyLevel := { name := vp.2 },
    validationStatus := vp.1,
    validFrom := dateCreated }

/-- The `for job_skill in job.skills` loop of `get_skills_api` (lines 673-713):
each iteration appends one assertion built with sequence number
`len(skill_assertions) + 1`, the length of the accumulator plus one. -/
def build_assertions_go (dateCreated : String) :
    List JobSkill → List SkillAssertion → List SkillAssertion
  | [], acc => acc
  | job_skill :: rest, acc =>
      build_assertions_go dateCreated rest
        (acc ++ [mk_skill_assertion job_skill (acc.length + 1) dateCreated])

/-- The full assertion list built by `get_skills_api` for a job. -/
def build_assertions (job : Job) : List SkillAssertion :=
  build_assertions_go job.dateCreated job.skills []

/-- The response assembly of `get_skills_api` (lines 715-725). -/
def build_skills_response (job : Job) : SkillsResponse :=
  { object := some
      { id := "https://api.hropenstandards.org/jedx/jobs/" ++ job.positionID,
        type := some "schema:JobPosting" },
    skills := build_assertions job }

/-- The identifier parsing of `get_skills_api` (line 665):
`identifier.split("/")[-1] if "/" in identifier else identifier`.  The last
element of `split("/")` is the suffix after the final slash, here computed by
taking characters from the right until a slash is seen. -/
def extract_job_id (identifier : String) : String :=
  if identifier.data.any (fun c => c == '/') then
    String.mk ((identifier.data.reverse.takeWhile (fun c => c != '/')).reverse)
  else identifier

/-- `GET /skills?identifier=...` handler `get_skills_api` (lines 656-725). -/
def get_skills_api (identifier : String) : Except HTTPError SkillsResponse :=
  match find_job (extract_job_id identifier) with
  | none =>
      .error { status := 404,
               detail := "Job with identifier " ++ identifier ++ " not found" }
  | some job => .ok (build_skills_response job)

/-- `GET /api/jobs` handler `get_all_jobs` (lines 333-336). -/
def get_all_jobs : List Job := sample_jobs

/-- `GET /api/skills` handler `get_all_skills` (lines 519-522). -/
def get_all_skills : List Skill := sample_skills

lemma truthy_true_iff (o : Option Bool) : truthy o = true ↔ o = some true := by
  cases o with
  | none => simp [truthy]
  | some b => cases b <;> simp [truthy]

lemma truthy_false_iff (o : Option Bool) : truthy o = false ↔ o ≠ some true := by
  cases o with
  | none => simp [truthy]
  | some b => cases b <;> simp [truthy]

lemma build_go_length (d : String) (skills : List JobSkill) :
    ∀ acc : List SkillAssertion,
      (build_assertions_go d skills acc).length = acc.length + skills.length := by
  induction skills with
  | nil => intro acc; simp [build_assertions_go]
  | cons sk rest ih =>
      intro acc
      simp only [build_assertions_go]
      rw [ih]
      simp
      omega

lemma build_go_get_left (d : String) (skills : List JobSkill) :
    ∀ (acc : List SkillAssertion) (j : Nat), j < acc.length →
      (build_assertions_go d skills acc)[j]? = acc[j]? := by
  induction skills with
  | nil => intro acc j hj; simp [build_assertions_go]
  | cons sk rest ih =>
      intro acc j hj
      simp only [build_assertions_go]
      rw [ih _ j (by simp; omega), List.getElem?_append, if_pos hj]

lemma build_go_get (d : String) (skills : List JobSkill) :
    ∀ (acc : List SkillAssertion) (i : Nat),
      (build_assertions_go d skills acc)[acc.length + i]? =
        (skills[i]?).map (fun sk => mk_skill_assertion sk (acc.length + i + 1) d) := by
  induction skills with
  | nil =>
      intro acc i
      simp [build_assertions_go]
  | cons sk rest ih =>
      intro acc i
      cases i with
      | zero =>
          simp only [build_assertions_go]
          rw [build_go_get_left d rest _ _ (by simp)]
          simp
      | succ n =>
          simp only [build_assertions_go]
          have harith : acc.length + (n + 1) = (acc ++ [mk_skill_assertion sk (acc.length + 1) d]).length + n := by
            simp
            omega
          rw [harith, ih]
          have hlen : (acc ++ [mk_skill_assertion sk (acc.length + 1) d]).length + n + 1 = acc.length + (n + 1) + 1 := by
            simp
            omega
          simp only [hlen, List.getElem?_cons_succ]

lemma build_assertions_get (job : Job) (i : Nat) :
    (build_assertions job)[i]? =
      (job.skills[i]?).map (fun sk => mk_skill_assertion sk (i + 1) job.dateCreated) := by
  have h := build_go_get job.dateCreated job.skills [] i
  simpa [build_assertions] using h

lemma takeWhile_until_slash :
    ∀ (l₁ l₂ : List Char), (∀ c ∈ l₁, ¬ c = '/') →
      (l₁ ++ '/' :: l₂).takeWhile (fun c => c != '/') = l₁ := by
  intro l₁
  induction l₁ with
  | nil => intro l₂ h; simp [List.takeWhile_cons]
  | cons c rest ih =>
      intro l₂ h
      have hc : ¬ c = '/' := h c (List.mem_cons_self c rest)
      simp only [List.cons_append, List.takeWhile_cons]
      have : (c != '/') = true := by simp [bne_iff_ne]; exact hc
      rw [this]
      simp only [if_true]
      rw [ih l₂ (fun x hx => h x (List.mem_cons_of_mem c hx))]

lemma extract_append (pre pid : String) (h : ∀ c ∈ pid.data, ¬ c = '/') :
    extract_job_id (pre ++ "/" ++ pid) = pid := by
  unfold extract_job_id
  have hdata : (pre ++ "/" ++ pid).data = pre.data ++ '/' :: pid.data := by
    simp [String.data_append]
  rw [hdata]
  have hany : (pre.data ++ '/' :: pid.data).any (fun c => c == '/') = true := by
    simp [List.any_append]
  rw [if_pos hany]
  rw [List.reverse_append, List.reverse_cons, List.append_assoc]
  simp only [List.singleton_append]
  rw [takeWhile_until_slash _ _ (by intro c hc; exact h c (List.mem_reverse.mp hc))]
  rw [List.reverse_reverse]

lemma extract_no_slash (s : String) (h : ∀ c ∈ s.data, ¬ c = '/') :
    extract_job_id s = s := by
  unfold extract_job_id
  have hany : (s.data.any (fun c => c == '/')) = false := by
    simp [List.any_eq_false]
    intro c hc
    exact h c hc
  rw [hany]
  simp

lemma find_job_eq_none_iff (pid : String) :
    find_job pid = none ↔ pid ∉ sample_jobs.map Job.positionID := by
  simp [find_job, List.find?_eq_none, List.mem_map]

/-- Claim C2: for every job (in particular every catalog job), the skills
endpoints partition job.skills so that required_skills holds exactly the
skills whose annotation is present with required true, recommended_skills
holds exactly those with preferred true and required not true, the lists
are disjoint, and unannotated or unflagged skills are in neither. -/
theorem C2_required_recommended_partition (job : Job) :
    (∀ sk, sk ∈ required_skills_of job ↔
        sk ∈ job.skills ∧ ∃ a, JobSkill.annotation sk = some a ∧ a.required = some true) ∧
    (∀ sk, sk ∈ recommended_skills_of job ↔
        sk ∈ job.skills ∧ ∃ a, JobSkill.annotation sk = some a ∧
          a.preferred = some true ∧ a.required ≠ some true) ∧
    (∀ sk, sk ∈ required_skills_of job → sk ∉ recommended_skills_of job) ∧
    (∀ sk, ( JobSkill.annotation sk = none ∨
        ∃ a, JobSkill.annotation sk = some a ∧ a.required ≠ some true ∧ a.preferred ≠ some true) →
        sk ∉ required_skills_of job ∧ sk ∉ recommended_skills_of job) := by
  have hreq : ∀ sk, is_required_skill sk = true ↔
      ∃ a, JobSkill.annotation sk = some a ∧ a.required = some true := by
    intro sk
    unfold is_required_skill
    cases h : JobSkill.annotation sk with
    | none => simp
    | some a => simp [truthy_true_iff]
  have hrec : ∀ sk, is_recommended_skill sk = true ↔
      ∃ a, JobSkill.annotation sk = some a ∧ a.preferred = some true ∧ a.required ≠ some true := by
    intro sk
    unfold is_recommended_skill
    cases h : JobSkill.annotation sk with
    | none => simp
    | some a => simp [truthy_true_iff, truthy_false_iff]
  refine ⟨?_, ?_, ?_, ?_⟩
  · intro sk
    rw [required_skills_of, List.mem_filter, hreq]
  · intro sk
    rw [recommended_skills_of, List.mem_filter, hrec]
  · intro sk hmem hmem2
    rw [required_skills_of, List.mem_filter, hreq] at hmem
    rw [recommended_skills_of, List.mem_filter, hrec] at hmem2
    obtain ⟨-, a, ha, har⟩ := hmem
    obtain ⟨-, a2, ha2, -, har2⟩ := hmem2
    rw [ha] at ha2
    cases ha2
    exact har2 har
  · intro sk hnone
    constructor
    · intro hmem
      rw [required_skills_of, List.mem_filter, hreq] at hmem
      obtain ⟨-, a, ha, har⟩ := hmem
      rcases hnone with h | ⟨a2, ha2, har2, -⟩
      · rw [h] at ha; cases ha
      · rw [ha] at ha2; cases ha2; exact har2 har
    · intro hmem
      rw [recommended_skills_of, List.mem_filter, hrec] at hmem
      obtain ⟨-, a, ha, hap, har⟩ := hmem
      rcases hnone with h | ⟨a2, ha2, -, hap2⟩
      · rw [h] at ha; cases ha
      · rw [ha] at ha2; cases ha2; exact hap2 hap

/-- Claim C3: for a job whose positionID is none of JDX-001, JDX-002,
JDX-003, transform_job_to_posting gives empty responsibilities,
requiredExperiences and requiredCredentials; the transformer is a total
function, so no error is raised on this path. -/
theorem C3_unknown_position_empty_tables (job : Job)
    (h1 : job.positionID ≠ "JDX-001") (h2 : job.positionID ≠ "JDX-002")
    (h3 : job.positionID ≠ "JDX-003") :
    (transform_job_to_posting job).responsibilities = some [] ∧
    (transform_job_to_posting job).requiredExperiences = some [] ∧
    (transform_job_to_posting job).requiredCredentials = some [] := by
  simp [transform_job_to_posting, position_tables, h1, h2, h3]

lemma map_name_to_annotated (l : List JobSkill) :
    (l.map to_annotated).map AnnotatedDefinedTerm.name = l.map JobSkill.name := by
  induction l with
  | nil => rfl
  | cons sk rest ih => simp [to_annotated, ih]

/-- Claim C6: transforming a Job with transform_job_to_posting and reading
back the skill names reproduces the original JobSkill name list, with the
same length and order. -/
theorem C6_skills_name_roundtrip (job : Job) :
    ∃ terms : List AnnotatedDefinedTerm,
      (transform_job_to_posting job).skills = some terms ∧
      terms.length = job.skills.length ∧
      terms.map AnnotatedDefinedTerm.name = job.skills.map JobSkill.name := by
  refine ⟨job.skills.map to_annotated, rfl, by simp, map_name_to_annotated job.skills⟩

/-- Claim C10: a JobSkill description of None or the empty string makes
transform_job_to_posting set the descriptions field of the corresponding
AnnotatedDefinedTerm to none, and a singleton list is produced exactly for
a non-empty description. -/
theorem C10_description_singleton :
    (∀ job : Job, (transform_job_to_posting job).skills = some (job.skills.map to_annotated)) ∧
    (∀ sk : JobSkill, sk.description = none → (to_annotated sk).descriptions = none) ∧
    (∀ sk : JobSkill, sk.description = some "" → (to_annotated sk).descriptions = none) ∧
    (∀ sk : JobSkill, ∀ s, sk.description = some s → s ≠ "" →
        (to_annotated sk).descriptions = some [s]) ∧
    (∀ sk : JobSkill, ∀ l, (to_annotated sk).descriptions = some l →
        ∃ s, s ≠ "" ∧ sk.description = some s ∧ l = [s]) := by
  refine ⟨fun job => rfl, ?_, ?_, ?_, ?_⟩
  · intro sk h; simp [to_annotated, h]
  · intro sk h; simp [to_annotated, h]
  · intro sk s h hne; simp [to_annotated, h, hne]
  · intro sk l h
    unfold to_annotated at h
    cases hd : sk.description with
    | none => rw [hd] at h; simp at h
    | some s =>
        rw [hd] at h
        simp only at h
        by_cases hs : s = ""
        · subst hs; simp at h
        · refine ⟨s, hs, rfl, ?_⟩
          simp [hs] at h
          exact h.symm

/-- Claim C1: the HR-Open transformer behind GET /skills derives each
assertion validationStatus and proficiencyLevel.name by the four ordered
rules, first match wins: annotation with preferred true and required not
true gives Provisional/Developing; required true with requiredAtHiring true
gives Validated/Advanced; required true with requiredAtHiring false or
absent gives Validated/Proficient; no annotation or neither flag set gives
Validated/Proficient.  The rules have pairwise-disjoint guards, so they are
stated as separate implications; the sixth conjunct ties the derivation to
every assertion the endpoint produces, and the last checks the concrete
JDX-003 scenario, Docker Containerization Validated/Advanced and Python
Programming Provisional/Developing. -/
theorem C1_validation_proficiency_rules :
    (∀ an : SkillAnnotation, an.preferred = some true → an.required ≠ some true →
        derive_validation (some an) = ("Provisional", "Developing")) ∧
    (∀ an : SkillAnnotation, an.required = some true → an.requiredAtHiring = some true →
        derive_validation (some an) = ("Validated", "Advanced")) ∧
    (∀ an : SkillAnnotation, an.required = some true → an.requiredAtHiring ≠ some true →
        derive_validation (some an) = ("Validated", "Proficient")) ∧
    (derive_validation none = ("Validated", "Proficient")) ∧
    (∀ an : SkillAnnotation, an.preferred ≠ some true → an.required ≠ some true →
        derive_validation (some an) = ("Validated", "Proficient")) ∧
    (∀ (job : Job) (i : Nat),
        ((build_assertions job)[i]?).map
            (fun a => (a.validationStatus, a.proficiencyLevel.name)) =
          (job.skills[i]?).map (fun sk => derive_validation ( JobSkill.annotation sk))) ∧
    ((get_skills_api "JDX-003").toOption.map
        (fun r => r.skills.map
          (fun a => (a.skill.name.getD "", a.validationStatus, a.proficiencyLevel.name))) =
      some [("Docker Containerization", "Validated", "Advanced"),
            ("AWS Cloud Services", "Validated", "Advanced"),
            ("Git Version Control", "Validated", "Advanced"),
            ("Python Programming", "Provisional", "Developing"),
            ("SQL Database Design", "Provisional", "Developing")]) := by
  refine ⟨?_, ?_, ?_, rfl, ?_, ?_, rfl⟩
  · intro an h1 h2
    have hp : truthy an.preferred = true := (truthy_true_iff _).mpr h1
    have hr : truthy an.required = false := (truthy_false_iff _).mpr h2
    simp [derive_validation, hp, hr]
  · intro an h1 h2
    have hr : truthy an.required = true := (truthy_true_iff _).mpr h1
    have hh : truthy an.requiredAtHiring = true := (truthy_true_iff _).mpr h2
    simp [derive_validation, hr, hh]
  · intro an h1 h2
    have hr : truthy an.required = true := (truthy_true_iff _).mpr h1
    have hh : truthy an.requiredAtHiring = false := (truthy_false_iff _).mpr h2
    simp [derive_validation, hr, hh]
  · intro an h1 h2
    have hp : truthy an.preferred = false := (truthy_false_iff _).mpr h1
    have hr : truthy an.required = false := (truthy_false_iff _).mpr h2
    simp [derive_validation, hp, hr]
  · intro job i
    rw [build_assertions_get]
    cases h : job.skills[i]? with
    | none => rfl
    | some sk => rfl

/-- Claim C7: the i-th skill assertion (1-indexed) of GET /skills has a
codedNotation equal to the concatenated uppercase two-letter word codes of
the first two words of the skill name, a hyphen, and the 3-digit
zero-padded sequence number i, the position of the assertion in the list;
the second conjunct checks the concrete codes generated for JDX-001. -/
theorem C7_coded_sequence_numbers :
    (∀ (job : Job) (i : Nat),
        ((build_assertions job)[i]?).map (fun a => SkillModel.codedNotation a.skill) =
          (job.skills[i]?).map (fun sk =>
            some (String.join (((py_split sk.name).take 2).map word_code) ++ "-" ++ pad3 (i + 1)))) ∧
    ((get_skills_api "JDX-001").toOption.map
        (fun r => r.skills.map (fun a => SkillModel.codedNotation a.skill)) =
      some [some "PYPR-001", some "FADE-002", some "SQDA-003",
            some "DOCO-004", some "AWCL-005"]) := by
  refine ⟨?_, by decide⟩
  intro job i
  rw [build_assertions_get]
  cases h : job.skills[i]? with
  | none => rfl
  | some sk => rfl

/-- Claim C4: GET /skills resolves its identifier by the substring after
the final slash when one is present, and by the whole string otherwise,
so a URI ending in a position ID and the bare position ID resolve to the
same job and, when the job exists, produce the same SkillsResponse; the
last conjunct is the concrete example of the spec. -/
theorem C4_identifier_parsing :
    (∀ pre pid : String, (∀ c ∈ pid.data, ¬ c = '/') →
        extract_job_id (pre ++ "/" ++ pid) = pid) ∧
    (∀ s : String, (∀ c ∈ s.data, ¬ c = '/') → extract_job_id s = s) ∧
    (∀ (pre pid : String) (job : Job), (∀ c ∈ pid.data, ¬ c = '/') →
        find_job pid = some job →
        get_skills_api (pre ++ "/" ++ pid) = get_skills_api pid) ∧
    (get_skills_api "https://x.example/jedx/jobs/JDX-002" = get_skills_api "JDX-002") := by
  refine ⟨extract_append, extract_no_slash, ?_, rfl⟩
  intro pre pid job h hfind
  rw [get_skills_api, get_skills_api, extract_append pre pid h, extract_no_slash pid h, hfind]

lemma find_job_of_mem (pid : String) (h : pid ∈ sample_jobs.map Job.positionID) :
    ∃ job, find_job pid = some job := by
  obtain ⟨job, hjob, rfl⟩ := List.mem_map.mp h
  have hs : (sample_jobs.find? (fun j => j.positionID == job.positionID)).isSome := by
    rw [List.find?_isSome]
    exact ⟨job, hjob, by simp⟩
  obtain ⟨j, hj⟩ := Option.isSome_iff_exists.mp hs
  exact ⟨j, hj⟩

/-- Claim C5: position IDs absent from the catalog make every job-scoped
handler fail with HTTP 404 whose detail contains the requested ID (the
detail is exactly the string built around the ID, and the second conjunct
exhibits the containment); present IDs make them all succeed; and every
error any handler produces carries status 404. -/
theorem C5_not_found_404 :
    (∀ pid : String, pid ∉ sample_jobs.map Job.positionID →
        get_job_by_id pid =
          .error { status := 404, detail := "Job with ID " ++ pid ++ " not found" } ∧
        get_job_with_skills_architecture pid =
          .error { status := 404, detail := "Job with ID " ++ pid ++ " not found" } ∧
        get_required_skills pid =
          .error { status := 404, detail := "Job with ID " ++ pid ++ " not found" } ∧
        get_recommended_skills pid =
          .error { status := 404, detail := "Job with ID " ++ pid ++ " not found" }) ∧
    (∀ pid : String, ∃ p₁ p₂ : String,
        "Job with ID " ++ pid ++ " not found" = p₁ ++ pid ++ p₂) ∧
    (∀ pid : String, pid ∈ sample_jobs.map Job.positionID →
        (∃ p, get_job_by_id pid = .ok p) ∧
        (∃ r, get_job_with_skills_architecture pid = .ok r) ∧
        (∃ l, get_required_skills pid = .ok l) ∧
        (∃ l, get_recommended_skills pid = .ok l)) ∧
    (∀ (pid : String) (e : HTTPError),
        (get_job_by_id pid = .error e ∨
         get_job_with_skills_architecture pid = .error e ∨
         get_required_skills pid = .error e ∨
         get_recommended_skills pid = .error e ∨
         get_skill_by_name pid = .error e ∨
         get_skills_api pid = .error e) → e.status = 404) := by
  refine ⟨?_, ?_, ?_, ?_⟩
  · intro pid h
    have hn : find_job pid = none := (find_job_eq_none_iff pid).mpr h
    exact ⟨by simp [get_job_by_id, hn], by simp [get_job_with_skills_architecture, hn],
           by simp [get_required_skills, hn], by simp [get_recommended_skills, hn]⟩
  · intro pid
    exact ⟨"Job with ID ", " not found", rfl⟩
  · intro pid h
    obtain ⟨job, hj⟩ := find_job_of_mem pid h
    refine ⟨⟨transform_job_to_posting job, by simp [get_job_by_id, hj]⟩,
            ⟨{ job := job, required_skills := required_skills_of job,
               recommended_skills := recommended_skills_of job },
             by simp [get_job_with_skills_architecture, hj]⟩,
            ⟨required_skills_of job, by simp [get_required_skills, hj]⟩,
            ⟨recommended_skills_of job, by simp [get_recommended_skills, hj]⟩⟩
  · intro pid e h
    rcases h with h | h | h | h | h | h
    · cases hf : find_job pid with
      | none =>
          simp only [get_job_by_id, hf, Except.error.injEq] at h
          subst h
          rfl
      | some j => simp [get_job_by_id, hf] at h
    · cases hf : find_job pid with
      | none =>
          simp only [get_job_with_skills_architecture, hf, Except.error.injEq] at h
          subst h
          rfl
      | some j => simp [get_job_with_skills_architecture, hf] at h
    · cases hf : find_job pid with
      | none =>
          simp only [get_required_skills, hf, Except.error.injEq] at h
          subst h
          rfl
      | some j => simp [get_required_skills, hf] at h
    · cases hf : find_job pid with
      | none =>
          simp only [get_recommended_skills, hf, Except.error.injEq] at h
          subst h
          rfl
      | some j => simp [get_recommended_skills, hf] at h
    · cases hf : sample_skills.find? (fun sk => str_lower sk.name == str_lower pid) with
      | none =>
          simp only [get_skill_by_name, hf, Except.error.injEq] at h
          subst h
          rfl
      | some sk => simp [get_skill_by_name, hf] at h
    · cases hf : find_job (extract_job_id pid) with
      | none =>
          simp only [get_skills_api, hf, Except.error.injEq] at h
          subst h
          rfl
      | some j => simp [get_skills_api, hf] at h

/-- Claim C8: for every position ID found in the catalog, GET
/api/jobs/(id) succeeds with a JobPosting whose positionID and postingID
both equal the job positionID (which equals the requested ID) and whose
name and title both equal the job name. -/
theorem C8_posting_field_aliases (pid : String) (job : Job) (h : find_job pid = some job) :
    get_job_by_id pid = .ok (transform_job_to_posting job) ∧
    (transform_job_to_posting job).positionID = some job.positionID ∧
    (transform_job_to_posting job).postingID = some job.positionID ∧
    (transform_job_to_posting job).name = some job.name ∧
    (transform_job_to_posting job).title = some job.name ∧
    job.positionID = pid := by
  refine ⟨by simp [get_job_by_id, h], rfl, rfl, rfl, rfl, ?_⟩
  have hp := List.find?_some h
  exact eq_of_beq hp

lemma find?_key_unique {α : Type} (key : α → String) :
    ∀ (l : List α) (a : α) (k : String), a ∈ l → key a = k →
      List.Pairwise (fun x y => key x ≠ key y) l →
      l.find? (fun x => key x == k) = some a := by
  intro l
  induction l with
  | nil => simp
  | cons b rest ih =>
      intro a k hmem hkey hpw
      rcases List.mem_cons.mp hmem with rfl | hmem2
      · simp [List.find?_cons, hkey]
      · have hne : key b ≠ k := by
          rw [← hkey]
          exact (List.pairwise_cons.mp hpw).1 a hmem2
        rw [List.find?_cons]
        have hb : (key b == k) = false := by simp [hne]
        rw [hb]
        exact ih a k hmem2 hkey (List.pairwise_cons.mp hpw).2

/-- Claim C9: GET /api/skills/(name) is a case-insensitive exact match: a
returned skill is a catalog skill whose lower-cased name equals the
lower-cased query, any catalog skill whose lower-cased name equals the
lower-cased query is returned, and two queries equal up to case return the
same skill results. -/
theorem C9_case_insensitive_skill_lookup :
    (∀ q s, get_skill_by_name q = .ok s →
        s ∈ sample_skills ∧ str_lower s.name = str_lower q) ∧
    (∀ q s, s ∈ sample_skills → str_lower s.name = str_lower q →
        get_skill_by_name q = .ok s) ∧
    (∀ q₁ q₂, str_lower q₁ = str_lower q₂ →
        ∀ s, get_skill_by_name q₁ = .ok s ↔ get_skill_by_name q₂ = .ok s) := by
  refine ⟨?_, ?_, ?_⟩
  · intro q s h
    unfold get_skill_by_name at h
    cases hf : sample_skills.find? (fun sk => str_lower sk.name == str_lower q) with
    | none => rw [hf] at h; cases h
    | some sk =>
        rw [hf] at h
        cases h
        refine ⟨List.mem_of_find?_eq_some hf, ?_⟩
        have hp := List.find?_some hf
        simpa using hp
  · intro q s hmem hlow
    have hf := find?_key_unique (fun sk => str_lower sk.name) sample_skills s
      (str_lower q) hmem hlow (by decide)
    unfold get_skill_by_name
    rw [hf]
  · intro q₁ q₂ h s
    unfold get_skill_by_name
    rw [show (fun sk : Skill => str_lower sk.name == str_lower q₁) =
        (fun sk : Skill => str_lower sk.name == str_lower q₂) from by funext sk; rw [h]]
    cases hf : sample_skills.find? (fun sk => str_lower sk.name == str_lower q₂) with
    | none => simp
    | some sk => simp

/-- Witness for C1: rule one and rule two applied at concrete annotations. -/
theorem C1_validation_proficiency_rules_witness :
    derive_validation (some { preferred := some true }) = ("Provisional", "Developing") ∧
    derive_validation (some { required := some true, requiredAtHiring := some true }) =
      ("Validated", "Advanced") :=
  ⟨C1_validation_proficiency_rules.1 _ rfl (by decide),
   C1_validation_proficiency_rules.2.1 _ rfl rfl⟩

/-- Witness for C2: a required-annotated skill of a concrete job is not
recommended. -/
theorem C2_required_recommended_partition_witness :
    ({ name := "S", annotation := some { required := some true } } : JobSkill) ∉
      recommended_skills_of
        { identifiers := [], hiringOrganization := { legalName := "O" }, name := "J",
          positionID := "P", dateCreated := "D",
          skills := [ { name := "S", annotation := some { required := some true } } ] } :=
  (C2_required_recommended_partition _).2.2.1 _ (by decide)

/-- Witness for C3: a concrete job with the unknown position ID JDX-999. -/
theorem C3_unknown_position_empty_tables_witness :
    (transform_job_to_posting
        { identifiers := [], hiringOrganization := { legalName := "O" }, name := "J",
          positionID := "JDX-999", dateCreated := "D" }).responsibilities = some [] ∧
    (transform_job_to_posting
        { identifiers := [], hiringOrganization := { legalName := "O" }, name := "J",
          positionID := "JDX-999", dateCreated := "D" }).requiredExperiences = some [] ∧
    (transform_job_to_posting
        { identifiers := [], hiringOrganization := { legalName := "O" }, name := "J",
          positionID := "JDX-999", dateCreated := "D" }).requiredCredentials = some [] :=
  C3_unknown_position_empty_tables _ (by decide) (by decide) (by decide)

/-- Witness for C4: the parsing rule at a concrete URI. -/
theorem C4_identifier_parsing_witness :
    extract_job_id ("https://api.hropenstandards.org/jedx/jobs" ++ "/" ++ "JDX-001") = "JDX-001" :=
  C4_identifier_parsing.1 "https://api.hropenstandards.org/jedx/jobs" "JDX-001" (by decide)

/-- Witness for C5: the unknown ID JDX-999 yields the 404 error and the
known ID JDX-001 succeeds. -/
theorem C5_not_found_404_witness :
    get_job_by_id "JDX-999" =
      .error { status := 404, detail := "Job with ID " ++ "JDX-999" ++ " not found" } ∧
    (∃ p, get_job_by_id "JDX-001" = .ok p) :=
  ⟨(C5_not_found_404.1 "JDX-999" (by decide)).1,
   (C5_not_found_404.2.2.1 "JDX-001" (by decide)).1⟩

/-- Witness for C8: the catalog job JDX-001. -/
theorem C8_posting_field_aliases_witness :
    get_job_by_id "JDX-001" =
      .ok (transform_job_to_posting (sample_jobs.get ⟨0, by decide⟩)) ∧
    (transform_job_to_posting (sample_jobs.get ⟨0, by decide⟩)).positionID = some "JDX-001" :=
  ⟨(C8_posting_field_aliases "JDX-001" (sample_jobs.get ⟨0, by decide⟩) (by decide)).1,
   (C8_posting_field_aliases "JDX-001" (sample_jobs.get ⟨0, by decide⟩) (by decide)).2.1⟩

/-- Witness for C9: the upper-cased query returns the Python Programming
catalog skill. -/
theorem C9_case_insensitive_skill_lookup_witness :
    get_skill_by_name "PYTHON PROGRAMMING" =
      .ok { name := "Python Programming",
            description := some "Proficiency in Python programming language",
            yearsOfExperience := some 3 } :=
  C9_case_insensitive_skill_lookup.2.1 "PYTHON PROGRAMMING" _ (by decide) (by decide)

/-- Witness for C10: an empty description maps to none and a non-empty one
to a singleton. -/
theorem C10_description_singleton_witness :
    (to_annotated { name := "S", description := some "" }).descriptions = none ∧
    (to_annotated { name := "S", description := some "d" }).descriptions = some ["d"] :=
  ⟨C10_description_singleton.2.2.1 _ rfl,
   C10_description_singleton.2.2.2.1 _ "d" rfl (by decide)⟩

end JedxApp
